import Mathlib

/-!
Shallow embedding of the `/api/recommend-genres` handler of the
genre_finder backend (`src/index.ts`, lines 133-325).

Every outbound capability the handler consumes — the Spotify catalog calls
made through the per-request `SpotifyWebApi` client, the OpenAI chat
completion, `JSON.parse` applied to the model output, and the `Promise.all`
join of the enrichment stage — is modelled as a field of an explicit
environment `Env`.  A call that throws in JavaScript is modelled with
`Except`; a JavaScript `TypeError` raised by indexing into a missing field
is made explicit at each place the source indexes unguardedly.  Optional /
possibly-absent JavaScript fields are modelled with `Option`, and the
JavaScript falsiness of the empty string is modelled by explicit
comparisons with `""`.
-/

namespace GenreFinder

/-- An error object raised by an outbound Spotify call: `statusCode` is
`none` when the error carries no HTTP status (e.g. a thrown `TypeError`).
`message` stands for `err.body?.error?.message || err.message`, the text the
handler interpolates into its error responses. -/
structure SpotifyErr where
  statusCode : Option Nat
  message : String
deriving Repr, DecidableEq

/-- A JavaScript runtime error (`TypeError`) thrown by unguarded indexing;
the source never inspects it beyond logging, so it carries no data. -/
inductive JsErr where
  | typeError
deriving Repr, DecidableEq

/-- One entry of a Spotify `images` array (`images[0]?.url`). -/
structure ImageObj where
  url : String
deriving Repr, DecidableEq

/-- A full Spotify artist record, as returned by `getArtist` and by the
items of `searchArtists`.  The handler reads `id`, `name`, `genres` and
`images`; the latter two are read behind truthiness guards (or, for
`images` at line 312, unguardedly), so absence is representable. -/
structure ArtistRecord where
  id : String
  name : String
  genres : Option (List String)
  images : Option (List ImageObj)
deriving Repr, DecidableEq

/-- The artist reference inside a searched track (`items[0].artists[0]`). -/
structure TrackArtistRef where
  id : String
deriving Repr, DecidableEq

/-- A track stub from `searchTracks`; the handler only reads `artists`. -/
structure TrackItem where
  artists : List TrackArtistRef
deriving Repr, DecidableEq

/-- The paging object `trackSearch.body.tracks`. -/
structure TracksPage where
  items : List TrackItem
deriving Repr, DecidableEq

/-- The body of a `searchTracks` response; `tracks` is truthiness-checked
at line 150, so it may be absent. -/
structure TrackSearchBody where
  tracks : Option TracksPage
deriving Repr, DecidableEq

/-- The paging object `artistSearch.body.artists`. -/
structure ArtistPage where
  items : List ArtistRecord
deriving Repr, DecidableEq

/-- The body of a `searchArtists` response; `artists` is
truthiness-checked at lines 160 and 288, so it may be absent. -/
structure ArtistSearchBody where
  artists : Option ArtistPage
deriving Repr, DecidableEq

/-- `track.external_urls` of a top-track record. -/
structure ExternalUrls where
  spotify : String
deriving Repr, DecidableEq

/-- A track record returned by `getArtistTopTracks`. -/
structure CatTrack where
  name : String
  external_urls : ExternalUrls
  preview_url : Option String
deriving Repr, DecidableEq

/-- The projection of a top track built at lines 185-189. -/
structure TopTrack where
  name : String
  url : String
  preview_url : Option String
deriving Repr, DecidableEq

/-- One entry of a recommended genre's `artists` array, as produced by the
model.  An absent/falsy `artistName` is modelled as `""` (the handler only
ever truthiness-tests it). -/
structure RecArtist where
  artistName : String
  spotifyTrackId : Option String
deriving Repr, DecidableEq

/-- A genre object from the parsed model output.  `artists` is read as
`genre.artists?.[0]`, so it may be absent. -/
structure Genre where
  name : String
  description : String
  artists : Option (List RecArtist)
deriving Repr, DecidableEq

/-- An element of the parsed `genres` array: either a proper object or a
null/primitive value (which fails the `typeof genre !== 'object'` guard at
line 278). -/
inductive JsGenreItem where
  | obj (g : Genre)
  | nonObj
deriving Repr, DecidableEq

/-- The `genres` field of the JSON document parsed from the model output:
absent or falsy, a proper array, or a truthy non-array value (a string or
a plain object, on which `.map` throws). -/
inductive GenresField where
  | absentOrFalsy
  | arrayOf (items : List JsGenreItem)
  | truthyNonArray
deriving Repr, DecidableEq

/-- A successfully parsed JSON document, viewed through the one field the
handler reads (`JSON.parse(aiResponse).genres`). -/
structure ParsedDoc where
  genres : GenresField
deriving Repr, DecidableEq

/-- The value of the `aiGenres` variable after line 270: always an array
(`[]` initially, or the parsed array), unless the parsed `genres` field was
a truthy non-array, which is stored as-is at line 258. -/
inductive AiGenresVal where
  | arr (items : List JsGenreItem)
  | nonArray
deriving Repr, DecidableEq

/-- An entry of `enrichedGenres`: `{ ...genre, imageUrl }`.  `genre` is
`none` when the spread source was not an object (the fallback at line 307
spreads it anyway, producing an object with only `imageUrl`). -/
structure EnrichedGenre where
  genre : Option Genre
  imageUrl : Option String
deriving Repr, DecidableEq

/-- The `searchedArtist` part of the response (line 312); `imageUrl` is
`none` when `artist.images[0]?.url` is `undefined`. -/
structure SearchedArtist where
  name : String
  imageUrl : Option String
deriving Repr, DecidableEq

/-- The success payload built at lines 311-315. -/
structure ResponsePayload where
  searchedArtist : SearchedArtist
  topTracks : List TopTrack
  aiRecommendations : List EnrichedGenre
deriving Repr, DecidableEq

/-- What the handler sends: `res.json(responseData)` or
`res.status(s).json({ error: m })`. -/
inductive HttpResponse where
  | ok (payload : ResponsePayload)
  | err (status : Nat) (message : String)
deriving Repr, DecidableEq

/-- The outbound world of one request: the Spotify catalog operations of
the per-request token-bound client (each taking the arguments the handler
passes, including the `limit` option and the market), the OpenAI chat
completion (prompt to optional message content; `none` models null or
missing content), `JSON.parse` on the model output (`none` models a parse
exception), and `promiseAllThrows`, which models the possibility of the
enrichment stage's `Promise.all` join itself rejecting — the total-stage
failure the source defends against at lines 305-308. -/
structure Env where
  searchTracks : String → Nat → Except SpotifyErr TrackSearchBody
  getArtist : String → Except SpotifyErr ArtistRecord
  searchArtists : String → Nat → Except SpotifyErr ArtistSearchBody
  getArtistTopTracks : String → String → Except SpotifyErr (List CatTrack)
  openAI : String → Except String (Option String)
  parseJSON : String → Option ParsedDoc
  promiseAllThrows : Bool

/-- JavaScript `x || d` on an optional status code: `0` is falsy. -/
def jsOrNat (x : Option Nat) (d : Nat) : Nat :=
  match x with
  | some n => if n = 0 then d else n
  | none => d

/-- JavaScript `x || null` on an optional string: `""` is falsy. -/
def jsOrNullStr (x : Option String) : Option String :=
  match x with
  | some s => if s = "" then none else some s
  | none => none

/-- The `TypeError` raised by `items[0].artists[0].id` when the searched
track has an empty `artists` array, as seen by the catch at line 164: no
`statusCode`, only a runtime message. -/
def typeErrAsSpotify : SpotifyErr :=
  { statusCode := none, message := "Cannot read properties of undefined" }

/-- The response produced by the catch at lines 164-171 for an error
raised inside the search block: status 401 is answered distinctly;
otherwise `err.statusCode || 503` with the error text interpolated. -/
def searchErrResponse (e : SpotifyErr) : HttpResponse :=
  if e.statusCode = some 401 then
    .err 401 "Spotify access token might be expired. Please try refreshing."
  else
    .err (jsOrNat e.statusCode 503) ("Failed to search Spotify: " ++ e.message)

/-- The artist-index fallback of lines 157-162: search artists with limit
1 and take the first item if the page is present and non-empty; otherwise
`artist` stays null. -/
def artistFallbackSearch (env : Env) (query : String) :
    Except HttpResponse (Option ArtistRecord) :=
  match env.searchArtists query 1 with
  | .error e => .error (searchErrResponse e)
  | .ok body =>
    match body.artists with
    | some page => .ok page.items.head?
    | none => .ok none

/-- The resolution block of lines 146-171: search tracks with limit 1; if
a track is found, fetch the full record of its first artist (an empty
`artists` array makes the unguarded `artists[0].id` throw into the same
catch); otherwise fall back to the artist search.  An `.error` result is
the early error response returned by the catch. -/
def resolveArtist (env : Env) (query : String) :
    Except HttpResponse (Option ArtistRecord) :=
  match env.searchTracks query 1 with
  | .error e => .error (searchErrResponse e)
  | .ok body =>
    match body.tracks with
    | none => artistFallbackSearch env query
    | some page =>
      match page.items with
      | [] => artistFallbackSearch env query
      | track :: _ =>
        match track.artists with
        | [] => .error (searchErrResponse typeErrAsSpotify)
        | ref :: _ =>
          match env.getArtist ref.id with
          | .error e => .error (searchErrResponse e)
          | .ok a => .ok (some a)

/-- The top-track block of lines 181-194: take the first 5 tracks of
`getArtistTopTracks(artist.id, 'US')` and project them; any error is
caught and leaves `topTracks = []`. -/
def topTrackLookup (env : Env) (artistId : String) : List TopTrack :=
  match env.getArtistTopTracks artistId "US" with
  | .error _ => []
  | .ok tracks =>
    (tracks.take 5).map fun t =>
      { name := t.name, url := t.external_urls.spotify, preview_url := t.preview_url }

/-- The `existingGenres` clause of lines 197-199: present exactly when the
artist's `genres` field is a non-empty array. -/
def existingGenres (a : ArtistRecord) : String :=
  match a.genres with
  | some gs =>
    if gs.length > 0 then
      "Do not recommend the genre \"" ++ String.intercalate ", " gs ++ "\"."
    else ""
  | none => ""

/-- Prompt text up to the first interpolation of the artist name. -/
def promptIntro : String :=
  "\n      You are a world-class music curator with deep knowledge of music from various countries.\n      A user is searching for music related to \""

/-- Prompt text between the first artist-name interpolation and the
`existingGenres` interpolation. -/
def promptStyle : String :=
  "\".\n      Based on this artist\x27s style:\n      1. Recommend EXACTLY 3 unique and interesting music genres. No more, no less.\n      2. For EACH of these 3 genres, provide a short, engaging description AND list EXACTLY 6 representative artists if possible. Listing 6 artists per genre is a primary requirement.\n      "

/-- The self-exclusion clause of line 209. -/
def artistClause (a : ArtistRecord) : String :=
  "Do not recommend the artist \"" ++ a.name ++ "\"."

/-- The diversity request of line 210. -/
def promptDiversity : String :=
  "\n      Try to include a diverse mix of artists from different countries like Korea, Japan, the UK, or the US, if relevant.\n      "

/-- The country-annotation prohibition of line 211. -/
def importantClause : String :=
  "IMPORTANT: Do NOT include country indicators like (US), (UK), (KR) next to the artist names."

/-- The JSON-format demand of line 212. -/
def strictJsonClause : String :=
  "Provide the response strictly in JSON format like this, ensuring the top-level \"genres\" array contains EXACTLY 3 items, and EACH \x27artists\x27 array ideally contains 6 items:"

/-- The JSON template of lines 213-218 up to the first track-identifier
key. -/
def promptJsonHead : String :=
  "\n      \x7b\n        \"genres\": [ \x2f\x2f MUST contain EXACTLY 3 genre objects\n          \x7b\n            \"name\": \"Genre Name 1\",\n            \"description\": \"...\",\n            \"artists\": [ \x2f\x2f MUST contain 6 artists if possible\n              \x7b\"artistName\": \"Artist 1\", \""

/-- The per-artist track-identifier key demanded by the template. -/
def trackIdKey : String := "spotifyTrackId"

/-- The remainder of the JSON template, lines 219-239. -/
def promptJsonTail : String :=
  "\": \"...\"\x7d,\n              \x7b\"artistName\": \"Artist 2\", \"spotifyTrackId\": \"...\"\x7d,\n              \x7b\"artistName\": \"Artist 3\", \"spotifyTrackId\": \"...\"\x7d,\n              \x7b\"artistName\": \"Artist 4\", \"spotifyTrackId\": \"...\"\x7d,\n              \x7b\"artistName\": \"Artist 5\", \"spotifyTrackId\": \"...\"\x7d,\n              \x7b\"artistName\": \"Artist 6\", \"spotifyTrackId\": \"...\"\x7d\n            ]\n          \x7d,\n          \x7b\n            \"name\": \"Genre Name 2\",\n            \"description\": \"...\",\n            \"artists\": [ \x2f* 6 artists *\x2f ]\n          \x7d,\n          \x7b\n            \"name\": \"Genre Name 3\",\n            \"description\": \"...\",\n            \"artists\": [ \x2f* 6 artists *\x2f ]\n          \x7d\n        ]\n      \x7d\n    "

/-- The full prompt template of lines 202-239, with its two interpolations
of `artist.name` and one of `existingGenres`. -/
def buildPrompt (a : ArtistRecord) : String :=
  promptIntro ++ a.name ++ promptStyle ++ existingGenres a ++ "\n      " ++
    artistClause a ++ promptDiversity ++ importantClause ++ "\n      " ++
    strictJsonClause ++ promptJsonHead ++ trackIdKey ++ promptJsonTail

/-- The OpenAI block of lines 242-270: any invocation error, null/empty
content, or JSON parse failure leaves `aiGenres` at its initial `[]`; a
parsed document contributes `genres || []`, which keeps a truthy non-array
value as-is. -/
def generateRecommendations (env : Env) (prompt : String) : AiGenresVal :=
  match env.openAI prompt with
  | .error _ => .arr []
  | .ok none => .arr []
  | .ok (some content) =>
    if content = "" then .arr []
    else
      match env.parseJSON content with
      | none => .arr []
      | some doc =>
        match doc.genres with
        | .absentOrFalsy => .arr []
        | .arrayOf items => .arr items
        | .truthyNonArray => .nonArray

/-- The per-genre image computation of lines 282-299: take
`genre.artists?.[0]`; if it exists with a truthy `artistName`, search the
artist index with limit 1 and read `items[0].images[0]?.url || null`.
A search error, a missing `artists` page, an empty result, or the
`TypeError` from a missing `images` field are all caught locally and leave
`imageUrl = null`. -/
def genreImageLookup (env : Env) (g : Genre) : Option String :=
  match g.artists.bind List.head? with
  | none => none
  | some fa =>
    if fa.artistName = "" then none
    else
      match env.searchArtists fa.artistName 1 with
      | .error _ => none
      | .ok body =>
        match body.artists with
        | none => none
        | some page =>
          match page.items with
          | [] => none
          | a :: _ =>
            match a.images with
            | none => none
            | some imgs => jsOrNullStr (imgs.head?.map ImageObj.url)

/-- The callback of the enrichment `map` at lines 277-301: a non-object
entry yields `null` (removed by the filter at line 303); an object entry is
spread together with its locally computed `imageUrl`. -/
def enrichItem (env : Env) (item : JsGenreItem) : Option EnrichedGenre :=
  match item with
  | .nonObj => none
  | .obj g => some { genre := some g, imageUrl := genreImageLookup env g }

/-- The body of the enrichment `try` at lines 276-303: `.map` on a truthy
non-array value throws; otherwise `Promise.all` joins the per-item results
(rejecting only if the join mechanism itself fails) and nulls are filtered
out. -/
def tryEnrich (env : Env) (v : AiGenresVal) : Except JsErr (List EnrichedGenre) :=
  match v with
  | .nonArray => .error .typeError
  | .arr items =>
    if env.promiseAllThrows then .error .typeError
    else .ok ((items.map (enrichItem env)).filterMap id)

/-- The fallback of line 307, run by the catch at lines 305-308:
`aiGenres.map(g => ({ ...g, imageUrl: null }))`, which throws again when
`aiGenres` is a truthy non-array. -/
def enrichFallback (v : AiGenresVal) : Except JsErr (List EnrichedGenre) :=
  match v with
  | .nonArray => .error .typeError
  | .arr items =>
    .ok (items.map fun item =>
      match item with
      | .obj g => { genre := some g, imageUrl := none }
      | .nonObj => { genre := none, imageUrl := none })

/-- The whole enrichment stage, lines 273-308: the `try` body, recovered
by the fallback on failure; an error escaping both reaches the handler's
top-level catch. -/
def enrichStage (env : Env) (v : AiGenresVal) : Except JsErr (List EnrichedGenre) :=
  match tryEnrich env v with
  | .ok r => .ok r
  | .error _ => enrichFallback v

/-- The `/api/recommend-genres` handler, lines 133-325.  Empty (falsy)
`query` and `accessToken` are rejected before any environment capability
is consulted; resolution errors return early; top-track, generation and
per-item enrichment failures are absorbed; an error escaping the
enrichment fallback or the unguarded `artist.images[0]` of line 312
reaches the top-level catch, whose errors carry no `statusCode`, giving
`res.status(500)`. -/
def recommendGenres (env : Env) (query accessToken : String) : HttpResponse :=
  if query = "" then .err 400 "Query is required"
  else if accessToken = "" then .err 401 "Access Token is required"
  else
    match resolveArtist env query with
    | .error resp => resp
    | .ok none => .err 404 "Artist or Track not found"
    | .ok (some artist) =>
      let topTracks := topTrackLookup env artist.id
      let aiGenres := generateRecommendations env (buildPrompt artist)
      match enrichStage env aiGenres with
      | .error _ => .err 500 "An unexpected server error occurred."
      | .ok enriched =>
        match artist.images with
        | none => .err 500 "An unexpected server error occurred."
        | some imgs =>
          .ok { searchedArtist := { name := artist.name, imageUrl := imgs.head?.map ImageObj.url },
                topTracks := topTracks,
                aiRecommendations := enriched }

/-- A transport error without an HTTP status, for concrete instantiations. -/
def errNoStatus : SpotifyErr := { statusCode := none, message := "ECONNRESET" }

/-- A concrete artist record for concrete instantiations. -/
def artistW : ArtistRecord :=
  { id := "A1", name := "Daft Punk", genres := some ["electronic"], images := some [] }

/-- A concrete track-search body whose first track references `artistW`. -/
def trackBodyW : TrackSearchBody :=
  { tracks := some { items := [{ artists := [{ id := "A1" }] }] } }

/-- A concrete environment: the track search finds a track of `artistW`,
the model call fails, everything else answers benignly. -/
def envW : Env where
  searchTracks := fun _ _ => .ok trackBodyW
  getArtist := fun _ => .ok artistW
  searchArtists := fun _ _ => .ok { artists := some { items := [] } }
  getArtistTopTracks := fun _ _ => .ok []
  openAI := fun _ => .error "timeout"
  parseJSON := fun _ => none
  promiseAllThrows := false

/-- `HttpResponse` with the `topTracks` of a success payload emptied; used
to relate a run whose top-track lookup fails to the same run without the
failure. -/
def withEmptyTopTracks : HttpResponse → HttpResponse
  | .ok p => .ok { p with topTracks := [] }
  | .err s m => .err s m

/-- A concrete artist record carrying an image, for concrete
instantiations. -/
def artistJ : ArtistRecord :=
  { id := "A2", name := "Justice", genres := some [], images := some [{ url := "img1.jpg" }] }

/-- A concrete recommended genre whose first artist resolves to
`artistJ`. -/
def gA : Genre :=
  { name := "french house", description := "four on the floor",
    artists := some [{ artistName := "Justice", spotifyTrackId := some "T1" }] }

/-- A concrete recommended genre whose first artist's image search
errors. -/
def gB : Genre :=
  { name := "synthwave", description := "retro",
    artists := some [{ artistName := "Kavinsky", spotifyTrackId := some "T2" }] }

/-- An environment whose artist search fails for `"Kavinsky"` and finds
`artistJ` for every other name. -/
def envE : Env :=
  { envW with
    searchArtists := fun n _ =>
      if n = "Kavinsky" then .error errNoStatus
      else .ok { artists := some { items := [artistJ] } } }

/-- An environment whose model call returns non-JSON text. -/
def envN : Env :=
  { envW with
    openAI := fun _ => .ok (some "I am sorry, I cannot answer in JSON."),
    parseJSON := fun _ => none }

/-- An environment whose model output parses to a truthy non-array
`genres` field. -/
def envT : Env :=
  { envW with
    openAI := fun _ => .ok (some "\x7b \"genres\": \"house\" \x7d"),
    parseJSON := fun _ => some { genres := .truthyNonArray } }

/-- An environment whose model output parses to a two-item `genres` array
and whose `Promise.all` join rejects. -/
def envP : Env :=
  { envW with
    promiseAllThrows := true,
    openAI := fun _ => .ok (some "\x7b \"genres\": [...] \x7d"),
    parseJSON := fun _ => some { genres := .arrayOf [.obj gA, .nonObj] } }

/-- An environment resolving to an artist record without an `images`
field. -/
def envM : Env :=
  { envW with getArtist := fun _ => .ok { artistW with images := none } }

/-- A concrete catalog top track. -/
def catTrackW : CatTrack :=
  { name := "One More Time", external_urls := { spotify := "u1" }, preview_url := none }

/-- An environment whose top-track call returns one track. -/
def envTop : Env :=
  { envW with getArtistTopTracks := fun _ _ => .ok [catTrackW] }

/-! ### Helper lemmas -/

lemma searchErrResponse_is_err (e : SpotifyErr) :
    ∃ s m, searchErrResponse e = .err s m := by
  unfold searchErrResponse
  split
  · exact ⟨_, _, rfl⟩
  · exact ⟨_, _, rfl⟩

lemma enrichStage_arr_nil (env : Env) : enrichStage env (.arr []) = .ok [] := by
  unfold enrichStage tryEnrich enrichFallback
  cases h : env.promiseAllThrows <;> simp [h]

lemma enrichStage_arr_ok (env : Env) (items : List JsGenreItem) :
    ∃ r, enrichStage env (.arr items) = .ok r := by
  unfold enrichStage tryEnrich enrichFallback
  cases h : env.promiseAllThrows <;> simp [h]

lemma enrichStage_nonArray (env : Env) :
    enrichStage env .nonArray = .error .typeError := by
  unfold enrichStage tryEnrich enrichFallback
  rfl

lemma recommendGenres_of_resolve_error (env : Env) (q t : String)
    (hq : q ≠ "") (ht : t ≠ "") (resp : HttpResponse)
    (h : resolveArtist env q = .error resp) :
    recommendGenres env q t = resp := by
  unfold recommendGenres
  rw [if_neg hq, if_neg ht, h]

lemma recommendGenres_of_resolve_none (env : Env) (q t : String)
    (hq : q ≠ "") (ht : t ≠ "") (h : resolveArtist env q = .ok none) :
    recommendGenres env q t = .err 404 "Artist or Track not found" := by
  unfold recommendGenres
  rw [if_neg hq, if_neg ht, h]

lemma recommendGenres_of_resolve_some (env : Env) (q t : String)
    (hq : q ≠ "") (ht : t ≠ "") (a : ArtistRecord)
    (h : resolveArtist env q = .ok (some a)) :
    recommendGenres env q t =
      match enrichStage env (generateRecommendations env (buildPrompt a)) with
      | .error _ => .err 500 "An unexpected server error occurred."
      | .ok enriched =>
        match a.images with
        | none => .err 500 "An unexpected server error occurred."
        | some imgs =>
          .ok { searchedArtist := { name := a.name, imageUrl := imgs.head?.map ImageObj.url },
                topTracks := topTrackLookup env a.id,
                aiRecommendations := enriched } := by
  unfold recommendGenres
  rw [if_neg hq, if_neg ht, h]

lemma resolveArtist_of_trackSearch_error (env : Env) (q : String) (e : SpotifyErr)
    (h : env.searchTracks q 1 = .error e) :
    resolveArtist env q = .error (searchErrResponse e) := by
  unfold resolveArtist
  rw [h]

lemma resolveArtist_of_track_found (env : Env) (q : String)
    (body : TrackSearchBody) (page : TracksPage) (track : TrackItem)
    (rest : List TrackItem) (ref : TrackArtistRef) (arest : List TrackArtistRef)
    (h1 : env.searchTracks q 1 = .ok body) (h2 : body.tracks = some page)
    (h3 : page.items = track :: rest) (h4 : track.artists = ref :: arest) :
    resolveArtist env q =
      match env.getArtist ref.id with
      | .error e => .error (searchErrResponse e)
      | .ok a => .ok (some a) := by
  unfold resolveArtist
  rw [h1]
  simp only [h2, h3, h4]

lemma resolveArtist_of_no_track (env : Env) (q : String) (body : TrackSearchBody)
    (h1 : env.searchTracks q 1 = .ok body)
    (h2 : body.tracks = none ∨ ∃ page, body.tracks = some page ∧ page.items = []) :
    resolveArtist env q = artistFallbackSearch env q := by
  unfold resolveArtist
  rw [h1]
  rcases h2 with h2 | ⟨page, h2, h3⟩
  · simp only [h2]
  · simp only [h2, h3]

/-! ### Claims -/

/-- C4: an empty `query` is answered with HTTP 400 and, for a non-empty
`query`, an empty access token with HTTP 401; in both cases the response is
the same for every environment, i.e. no outbound catalog or model
capability is consulted. -/
theorem c4_empty_inputs_rejected_before_any_upstream_call :
    (∀ (env : Env) (t : String),
      recommendGenres env "" t = .err 400 "Query is required") ∧
    (∀ (env : Env) (q : String), q ≠ "" →
      recommendGenres env q "" = .err 401 "Access Token is required") := by
  constructor
  · intro env t
    rfl
  · intro env q hq
    unfold recommendGenres
    rw [if_neg hq, if_pos rfl]

/-- Witness for C4 at concrete inputs. -/
theorem c4_witness :
    recommendGenres envW "" "tok" = .err 400 "Query is required" ∧
    recommendGenres envW "around the world" "" = .err 401 "Access Token is required" :=
  ⟨c4_empty_inputs_rejected_before_any_upstream_call.1 envW "tok",
   c4_empty_inputs_rejected_before_any_upstream_call.2 envW "around the world" (by decide)⟩

/-- C5: an error thrown during resolution (track search, artist fetch by
identifier, or artist search) is mapped to the response of the search
catch: upstream status 401 becomes a distinct HTTP 401 credential-expired
answer, any other available status is propagated, and a status-less error
becomes HTTP 503; each of the three call sites routes its error through
that mapping. -/
theorem c5_resolution_error_mapping :
    (∀ e : SpotifyErr, e.statusCode = some 401 →
      searchErrResponse e =
        .err 401 "Spotify access token might be expired. Please try refreshing.") ∧
    (∀ (e : SpotifyErr) (n : Nat), e.statusCode = some n → n ≠ 401 → 0 < n →
      searchErrResponse e = .err n ("Failed to search Spotify: " ++ e.message)) ∧
    (∀ e : SpotifyErr, e.statusCode = none →
      searchErrResponse e = .err 503 ("Failed to search Spotify: " ++ e.message)) ∧
    (∀ (env : Env) (q t : String) (e : SpotifyErr), q ≠ "" → t ≠ "" →
      env.searchTracks q 1 = .error e →
      recommendGenres env q t = searchErrResponse e) ∧
    (∀ (env : Env) (q t : String) (body : TrackSearchBody) (page : TracksPage)
        (track : TrackItem) (rest : List TrackItem) (ref : TrackArtistRef)
        (arest : List TrackArtistRef) (e : SpotifyErr), q ≠ "" → t ≠ "" →
      env.searchTracks q 1 = .ok body → body.tracks = some page →
      page.items = track :: rest → track.artists = ref :: arest →
      env.getArtist ref.id = .error e →
      recommendGenres env q t = searchErrResponse e) ∧
    (∀ (env : Env) (q t : String) (body : TrackSearchBody) (e : SpotifyErr),
      q ≠ "" → t ≠ "" →
      env.searchTracks q 1 = .ok body →
      (body.tracks = none ∨ ∃ page, body.tracks = some page ∧ page.items = []) →
      env.searchArtists q 1 = .error e →
      recommendGenres env q t = searchErrResponse e) := by
  refine ⟨?_, ?_, ?_, ?_, ?_, ?_⟩
  · intro e h
    unfold searchErrResponse
    rw [if_pos h]
  · intro e n h hne hpos
    unfold searchErrResponse jsOrNat
    rw [if_neg (by rw [h]; simpa using hne), h]
    simp [Nat.pos_iff_ne_zero.mp hpos]
  · intro e h
    unfold searchErrResponse jsOrNat
    rw [if_neg (by rw [h]; simp), h]
  · intro env q t e hq ht h
    exact recommendGenres_of_resolve_error env q t hq ht _
      (resolveArtist_of_trackSearch_error env q e h)
  · intro env q t body page track rest ref arest e hq ht h1 h2 h3 h4 h5
    refine recommendGenres_of_resolve_error env q t hq ht _ ?_
    rw [resolveArtist_of_track_found env q body page track rest ref arest h1 h2 h3 h4, h5]
  · intro env q t body e hq ht h1 h2 h3
    refine recommendGenres_of_resolve_error env q t hq ht _ ?_
    rw [resolveArtist_of_no_track env q body h1 h2]
    unfold artistFallbackSearch
    rw [h3]

/-- Witness for C5: a 401 during the track search yields the distinct
credential-expired answer at concrete inputs. -/
theorem c5_witness :
    recommendGenres
      { envW with searchTracks := fun _ _ => .error { statusCode := some 401, message := "The access token expired" } }
      "daft punk" "tok"
      = .err 401 "Spotify access token might be expired. Please try refreshing." := by
  have h := c5_resolution_error_mapping.2.2.2.1
    { envW with searchTracks := fun _ _ => .error { statusCode := some 401, message := "The access token expired" } }
    "daft punk" "tok" { statusCode := some 401, message := "The access token expired" }
    (by decide) (by decide) rfl
  rw [h]
  rfl

/-- C1: resolution is track-first — a track found by the limit-1 track
search determines the resolved artist via a full fetch by its first
artist's identifier; only when the track search yields nothing is the
limit-1 artist search consulted, its first item becoming the resolved
artist; and when neither search yields a result the handler answers HTTP
404. -/
theorem c1_track_first_resolution :
    (∀ (env : Env) (q : String) (body : TrackSearchBody) (page : TracksPage)
        (track : TrackItem) (rest : List TrackItem) (ref : TrackArtistRef)
        (arest : List TrackArtistRef) (a : ArtistRecord),
      env.searchTracks q 1 = .ok body → body.tracks = some page →
      page.items = track :: rest → track.artists = ref :: arest →
      env.getArtist ref.id = .ok a →
      resolveArtist env q = .ok (some a)) ∧
    (∀ (env : Env) (q : String) (body : TrackSearchBody) (abody : ArtistSearchBody)
        (apage : ArtistPage) (a : ArtistRecord) (arest : List ArtistRecord),
      env.searchTracks q 1 = .ok body →
      (body.tracks = none ∨ ∃ page, body.tracks = some page ∧ page.items = []) →
      env.searchArtists q 1 = .ok abody → abody.artists = some apage →
      apage.items = a :: arest →
      resolveArtist env q = .ok (some a)) ∧
    (∀ (env : Env) (q t : String) (body : TrackSearchBody) (abody : ArtistSearchBody),
      q ≠ "" → t ≠ "" →
      env.searchTracks q 1 = .ok body →
      (body.tracks = none ∨ ∃ page, body.tracks = some page ∧ page.items = []) →
      env.searchArtists q 1 = .ok abody →
      (abody.artists = none ∨ ∃ apage, abody.artists = some apage ∧ apage.items = []) →
      recommendGenres env q t = .err 404 "Artist or Track not found") := by
  refine ⟨?_, ?_, ?_⟩
  · intro env q body page track rest ref arest a h1 h2 h3 h4 h5
    rw [resolveArtist_of_track_found env q body page track rest ref arest h1 h2 h3 h4, h5]
  · intro env q body abody apage a arest h1 h2 h3 h4 h5
    rw [resolveArtist_of_no_track env q body h1 h2]
    unfold artistFallbackSearch
    rw [h3]
    simp only [h4, h5, List.head?]
  · intro env q t body abody hq ht h1 h2 h3 h4
    refine recommendGenres_of_resolve_none env q t hq ht ?_
    rw [resolveArtist_of_no_track env q body h1 h2]
    unfold artistFallbackSearch
    rw [h3]
    rcases h4 with h4 | ⟨apage, h4, h5⟩
    · simp only [h4]
    · simp only [h4, h5, List.head?]

/-- Witness for C1: in `envW` the track search finds a track of artist
`"A1"`, so resolution returns the full record `artistW`; in `envW` with
the track search finding nothing, the empty artist search makes the
handler answer 404. -/
theorem c1_witness :
    resolveArtist envW "get lucky" = .ok (some artistW) ∧
    recommendGenres { envW with searchTracks := fun _ _ => .ok { tracks := some { items := [] } } }
      "get lucky" "tok" = .err 404 "Artist or Track not found" :=
  ⟨c1_track_first_resolution.1 envW "get lucky" trackBodyW
      { items := [{ artists := [{ id := "A1" }] }] }
      { artists := [{ id := "A1" }] } [] { id := "A1" } [] artistW rfl rfl rfl rfl rfl,
   c1_track_first_resolution.2.2
      { envW with searchTracks := fun _ _ => .ok { tracks := some { items := [] } } }
      "get lucky" "tok" { tracks := some { items := [] } }
      { artists := some { items := [] } } (by decide) (by decide) rfl
      (Or.inr ⟨{ items := [] }, rfl, rfl⟩) rfl
      (Or.inr ⟨{ items := [] }, rfl, rfl⟩)⟩

/-- C2: when the model invocation errors, or its non-empty returned text
fails to parse as JSON, the generation stage yields the empty array and —
for an artist record whose `images` field is present — the request still
succeeds, with `aiRecommendations` empty. -/
theorem c2_generation_failure_is_soft (env : Env) (q t : String) (a : ArtistRecord)
    (imgs : List ImageObj) (hq : q ≠ "") (ht : t ≠ "")
    (hres : resolveArtist env q = .ok (some a)) (himg : a.images = some imgs)
    (hfail : (∃ e, env.openAI (buildPrompt a) = .error e) ∨
      ∃ s, env.openAI (buildPrompt a) = .ok (some s) ∧ s ≠ "" ∧ env.parseJSON s = none) :
    generateRecommendations env (buildPrompt a) = .arr [] ∧
    recommendGenres env q t =
      .ok { searchedArtist := { name := a.name, imageUrl := imgs.head?.map ImageObj.url },
            topTracks := topTrackLookup env a.id,
            aiRecommendations := [] } := by
  have hgen : generateRecommendations env (buildPrompt a) = .arr [] := by
    unfold generateRecommendations
    rcases hfail with ⟨e, hcall⟩ | ⟨s, hcall, hs, hparse⟩
    · rw [hcall]
    · rw [hcall]
      simp only [if_neg hs, hparse]
  refine ⟨hgen, ?_⟩
  rw [recommendGenres_of_resolve_some env q t hq ht a hres, hgen,
    enrichStage_arr_nil env, himg]

/-- Witness for C2: in `envW` the model call fails and the request still
succeeds with empty recommendations. -/
theorem c2_witness :
    recommendGenres envW "get lucky" "tok" =
      .ok { searchedArtist := { name := "Daft Punk", imageUrl := none },
            topTracks := [], aiRecommendations := [] } := by
  have h := (c2_generation_failure_is_soft envW "get lucky" "tok" artistW []
    (by decide) (by decide) rfl rfl (Or.inl ⟨"timeout", rfl⟩)).2
  rw [h]
  rfl

/-- C3: on a list of proper genre objects, and with the `Promise.all` join
not itself failing, enrichment returns exactly the input list in order,
each entry extended with the image resolved for that genre alone; and a
genre whose limit-1 image search errors gets `imageUrl = none`, each
sibling's value being the lookup of that sibling only. -/
theorem c3_enrichment_preserves_order_and_isolates_failures
    (env : Env) (gs : List Genre) (hp : env.promiseAllThrows = false) :
    enrichStage env (.arr (gs.map JsGenreItem.obj)) =
      .ok (gs.map fun g => { genre := some g, imageUrl := genreImageLookup env g }) ∧
    (∀ (g : Genre) (fa : RecArtist), g.artists.bind List.head? = some fa →
      (∃ e, env.searchArtists fa.artistName 1 = .error e) →
      genreImageLookup env g = none) := by
  constructor
  · unfold enrichStage tryEnrich
    rw [hp]
    simp only [Bool.false_eq_true, if_false, List.map_map]
    have : (List.filterMap id (gs.map (enrichItem env ∘ JsGenreItem.obj))) =
        gs.map fun g => { genre := some g, imageUrl := genreImageLookup env g } := by
      induction gs with
      | nil => rfl
      | cons g tl ih => simp [List.filterMap_cons, ih, enrichItem, Function.comp]
    rw [this]
  · intro g fa hfa ⟨e, herr⟩
    unfold genreImageLookup
    by_cases hn : fa.artistName = ""
    · simp [hfa, hn]
    · simp [hfa, hn, herr]

/-- Witness for C3: of two genres, the second one's image search errors;
the first keeps its resolved image and only the second gets `none`. -/
theorem c3_witness :
    enrichStage envE (.arr ([gA, gB].map JsGenreItem.obj)) =
      .ok [{ genre := some gA, imageUrl := some "img1.jpg" },
           { genre := some gB, imageUrl := none }] := by
  have h := (c3_enrichment_preserves_order_and_isolates_failures envE [gA, gB] rfl).1
  rw [h]
  rfl

lemma resolveArtist_set_topTracks (env : Env)
    (f : String → String → Except SpotifyErr (List CatTrack)) (q : String) :
    resolveArtist { env with getArtistTopTracks := f } q = resolveArtist env q := rfl

lemma generateRecommendations_set_topTracks (env : Env)
    (f : String → String → Except SpotifyErr (List CatTrack)) (p : String) :
    generateRecommendations { env with getArtistTopTracks := f } p =
      generateRecommendations env p := rfl

lemma enrichStage_set_topTracks (env : Env)
    (f : String → String → Except SpotifyErr (List CatTrack)) (v : AiGenresVal) :
    enrichStage { env with getArtistTopTracks := f } v = enrichStage env v := rfl

lemma resolveArtist_error_shape (env : Env) (q : String) (resp : HttpResponse)
    (h : resolveArtist env q = .error resp) : ∃ s m, resp = .err s m := by
  unfold resolveArtist artistFallbackSearch at h
  repeat' split at h
  all_goals simp only [Except.error.injEq, Except.ok.injEq, reduceCtorEq] at h
  all_goals (subst h; exact searchErrResponse_is_err _)

/-- C6: the top-track lookup projects at most the first 5 tracks in the
catalog-reported order; any error in the lookup leaves it empty; and a run
whose top-track call fails produces exactly the response the same run
would otherwise produce, with `topTracks` emptied — the same success or
failure, never an abort caused by the lookup. -/
theorem c6_top_tracks_capped_ordered_and_nonfatal :
    (∀ (env : Env) (aid : String) (ts : List CatTrack),
      env.getArtistTopTracks aid "US" = .ok ts →
      topTrackLookup env aid = (ts.take 5).map (fun tr =>
        { name := tr.name, url := tr.external_urls.spotify,
          preview_url := tr.preview_url }) ∧
      (topTrackLookup env aid).length ≤ 5) ∧
    (∀ (env : Env) (aid : String) (e : SpotifyErr),
      env.getArtistTopTracks aid "US" = .error e → topTrackLookup env aid = []) ∧
    (∀ (env : Env) (q t : String) (e : SpotifyErr),
      recommendGenres { env with getArtistTopTracks := fun _ _ => .error e } q t =
        withEmptyTopTracks (recommendGenres env q t)) := by
  refine ⟨?_, ?_, ?_⟩
  · intro env aid ts h
    have h1 : topTrackLookup env aid = (ts.take 5).map (fun tr =>
        { name := tr.name, url := tr.external_urls.spotify,
          preview_url := tr.preview_url }) := by
      unfold topTrackLookup
      rw [h]
    refine ⟨h1, ?_⟩
    rw [h1, List.length_map]
    exact le_trans (List.length_take_le 5 ts) (le_refl 5)
  · intro env aid e h
    unfold topTrackLookup
    rw [h]
  · intro env q t e
    by_cases hq : q = ""
    · subst hq
      rfl
    · by_cases ht : t = ""
      · subst ht
        unfold recommendGenres
        rw [if_neg hq, if_pos rfl, if_neg hq, if_pos rfl]
        rfl
      · cases hres : resolveArtist env q with
        | error resp =>
          obtain ⟨s, m, hsm⟩ := resolveArtist_error_shape env q resp hres
          rw [recommendGenres_of_resolve_error env q t hq ht resp hres,
            recommendGenres_of_resolve_error _ q t hq ht resp
              (by rw [resolveArtist_set_topTracks]; exact hres), hsm]
          rfl
        | ok oa =>
          cases oa with
          | none =>
            rw [recommendGenres_of_resolve_none env q t hq ht hres,
              recommendGenres_of_resolve_none _ q t hq ht
                (by rw [resolveArtist_set_topTracks]; exact hres)]
            rfl
          | some a =>
            rw [recommendGenres_of_resolve_some env q t hq ht a hres,
              recommendGenres_of_resolve_some _ q t hq ht a
                (by rw [resolveArtist_set_topTracks]; exact hres),
              generateRecommendations_set_topTracks, enrichStage_set_topTracks]
            cases henr : enrichStage env (generateRecommendations env (buildPrompt a)) with
            | error er => rfl
            | ok enriched =>
              cases himg : a.images with
              | none => rfl
              | some imgs =>
                simp only [withEmptyTopTracks]
                congr 1

/-- Witness for C6: one catalog track is projected in order, and the same
run with a failing top-track call yields the same success with empty
`topTracks`. -/
theorem c6_witness :
    topTrackLookup envTop "A1" = [{ name := "One More Time", url := "u1", preview_url := none }] ∧
    recommendGenres { envTop with getArtistTopTracks := fun _ _ => .error errNoStatus }
        "get lucky" "tok" =
      withEmptyTopTracks (recommendGenres envTop "get lucky" "tok") := by
  constructor
  · have h := (c6_top_tracks_capped_ordered_and_nonfatal.1 envTop "A1" [catTrackW] rfl).1
    rw [h]
    rfl
  · exact c6_top_tracks_capped_ordered_and_nonfatal.2.2 envTop "get lucky" "tok" errNoStatus

/-- C7: the prompt contains the clause naming the resolved artist and
forbidding its recommendation; the known-genre exclusion clause is the
non-empty genre sentence exactly when the artist has at least one known
genre and the empty string otherwise, and it is spliced into the prompt;
and the prompt contains the strictly-JSON demand, the per-artist
`spotifyTrackId` key of the demanded shape, and the prohibition of country
annotations next to artist names. -/
theorem c7_prompt_shape (a : ArtistRecord) :
    (∃ p s, buildPrompt a = p ++ artistClause a ++ s) ∧
    artistClause a = "Do not recommend the artist \"" ++ a.name ++ "\"." ∧
    (∃ p s, buildPrompt a = p ++ existingGenres a ++ s) ∧
    (∀ gs, a.genres = some gs → gs ≠ [] →
      existingGenres a =
        "Do not recommend the genre \"" ++ String.intercalate ", " gs ++ "\".") ∧
    ((a.genres = none ∨ a.genres = some []) → existingGenres a = "") ∧
    (∃ p s, buildPrompt a = p ++ importantClause ++ s) ∧
    importantClause =
      "IMPORTANT: Do NOT include country indicators like (US), (UK), (KR) next to the artist names." ∧
    (∃ p s, buildPrompt a = p ++ strictJsonClause ++ s) ∧
    (∃ p s, buildPrompt a = p ++ trackIdKey ++ s) ∧
    trackIdKey = "spotifyTrackId" := by
  refine ⟨?_, rfl, ?_, ?_, ?_, ?_, rfl, ?_, ?_, rfl⟩
  · refine ⟨promptIntro ++ a.name ++ promptStyle ++ existingGenres a ++ "\n      ",
      promptDiversity ++ importantClause ++ "\n      " ++ strictJsonClause ++
        promptJsonHead ++ trackIdKey ++ promptJsonTail, ?_⟩
    simp only [buildPrompt, String.append_assoc]
  · refine ⟨promptIntro ++ a.name ++ promptStyle,
      "\n      " ++ artistClause a ++ promptDiversity ++ importantClause ++ "\n      " ++
        strictJsonClause ++ promptJsonHead ++ trackIdKey ++ promptJsonTail, ?_⟩
    simp only [buildPrompt, String.append_assoc]
  · intro gs hg hne
    simp only [existingGenres, hg]
    rw [if_pos (by simpa using List.length_pos.mpr hne)]
  · intro h
    unfold existingGenres
    rcases h with h | h <;> rw [h]
    rfl
  · refine ⟨promptIntro ++ a.name ++ promptStyle ++ existingGenres a ++ "\n      " ++
      artistClause a ++ promptDiversity,
      "\n      " ++ strictJsonClause ++ promptJsonHead ++ trackIdKey ++ promptJsonTail, ?_⟩
    simp only [buildPrompt, String.append_assoc]
  · refine ⟨promptIntro ++ a.name ++ promptStyle ++ existingGenres a ++ "\n      " ++
      artistClause a ++ promptDiversity ++ importantClause ++ "\n      ",
      promptJsonHead ++ trackIdKey ++ promptJsonTail, ?_⟩
    simp only [buildPrompt, String.append_assoc]
  · refine ⟨promptIntro ++ a.name ++ promptStyle ++ existingGenres a ++ "\n      " ++
      artistClause a ++ promptDiversity ++ importantClause ++ "\n      " ++
        strictJsonClause ++ promptJsonHead, promptJsonTail, ?_⟩
    simp only [buildPrompt, String.append_assoc]

/-- Witness for C7: for `artistW` (one known genre) the exclusion clause
is the non-empty sentence; for the same record with no genre list it is
empty. -/
theorem c7_witness :
    existingGenres artistW = "Do not recommend the genre \"electronic\"." ∧
    existingGenres { artistW with genres := none } = "" := by
  constructor
  · have h := (c7_prompt_shape artistW).2.2.2.1 ["electronic"] rfl (by decide)
    rw [h]
    rfl
  · exact (c7_prompt_shape { artistW with genres := none }).2.2.2.2.1 (Or.inl rfl)

/-- C8: if the enrichment join itself rejects while the generation stage
produced a genres array, the handler falls back to the original
recommendation sequence — order and entries preserved, each spread with
`imageUrl = null` — and (for an artist record whose `images` field is
present) still answers with a success response. -/
theorem c8_total_enrichment_failure_falls_back (env : Env) (q t : String)
    (a : ArtistRecord) (imgs : List ImageObj) (items : List JsGenreItem)
    (hq : q ≠ "") (ht : t ≠ "")
    (hres : resolveArtist env q = .ok (some a)) (himg : a.images = some imgs)
    (hgen : generateRecommendations env (buildPrompt a) = .arr items)
    (hthrow : env.promiseAllThrows = true) :
    ∃ p, recommendGenres env q t = .ok p ∧
      p.aiRecommendations = (items.map fun item =>
        match item with
        | .obj g => { genre := some g, imageUrl := none }
        | .nonObj => { genre := none, imageUrl := none }) ∧
      ∀ x ∈ p.aiRecommendations, x.imageUrl = none := by
  have henr : enrichStage env (.arr items) =
      .ok (items.map fun item =>
        match item with
        | .obj g => { genre := some g, imageUrl := none }
        | .nonObj => { genre := none, imageUrl := none }) := by
    unfold enrichStage tryEnrich enrichFallback
    rw [hthrow]
    rfl
  have hrun : recommendGenres env q t = .ok
      { searchedArtist := { name := a.name, imageUrl := imgs.head?.map ImageObj.url },
        topTracks := topTrackLookup env a.id,
        aiRecommendations := items.map fun item =>
          match item with
          | .obj g => { genre := some g, imageUrl := none }
          | .nonObj => { genre := none, imageUrl := none } } := by
    rw [recommendGenres_of_resolve_some env q t hq ht a hres, hgen, henr, himg]
  refine ⟨_, hrun, rfl, ?_⟩
  · intro x hx
    rw [List.mem_map] at hx
    obtain ⟨item, _, rfl⟩ := hx
    cases item <;> rfl

/-- Witness for C8: in `envP` (array of two model genres, rejecting join)
the request succeeds with both entries kept in order and nulled images. -/
theorem c8_witness :
    ∃ p, recommendGenres envP "get lucky" "tok" = .ok p ∧
      p.aiRecommendations = [{ genre := some gA, imageUrl := none },
                             { genre := none, imageUrl := none }] ∧
      ∀ x ∈ p.aiRecommendations, x.imageUrl = none := by
  have h := c8_total_enrichment_failure_falls_back envP "get lucky" "tok" artistW []
    [.obj gA, .nonObj] (by decide) (by decide) rfl rfl rfl rfl
  exact h

/-- C9: a truthy non-array `genres` value in otherwise valid model JSON is
not degraded to an empty list — the enrichment map throws on it, the
fallback map throws again, and the handler answers the generic HTTP 500
error. -/
theorem c9_nonarray_genres_value_escalates_to_500 (env : Env) (q t : String)
    (a : ArtistRecord) (s : String) (doc : ParsedDoc)
    (hq : q ≠ "") (ht : t ≠ "")
    (hres : resolveArtist env q = .ok (some a))
    (hai : env.openAI (buildPrompt a) = .ok (some s)) (hs : s ≠ "")
    (hparse : env.parseJSON s = some doc) (hgf : doc.genres = .truthyNonArray) :
    recommendGenres env q t = .err 500 "An unexpected server error occurred." := by
  have hgen : generateRecommendations env (buildPrompt a) = .nonArray := by
    unfold generateRecommendations
    rw [hai]
    simp only [if_neg hs, hparse, hgf]
  rw [recommendGenres_of_resolve_some env q t hq ht a hres, hgen,
    enrichStage_nonArray]

/-- Witness for C9: in `envT` the parsed `genres` field is a truthy
non-array and the request fails with the generic 500 error. -/
theorem c9_witness :
    recommendGenres envT "get lucky" "tok" =
      .err 500 "An unexpected server error occurred." :=
  c9_nonarray_genres_value_escalates_to_500 envT "get lucky" "tok" artistW
    "\x7b \"genres\": \"house\" \x7d" { genres := .truthyNonArray }
    (by decide) (by decide) rfl rfl (by decide) rfl rfl

/-- C10: with an empty `images` array on the resolved artist the request
still succeeds and `searchedArtist.imageUrl` is absent; with no `images`
field at all, the unguarded `artist.images[0]` of the response assembly
throws and the request fails with the generic HTTP 500 error. -/
theorem c10_searched_artist_image_indexing (env : Env) (q t : String)
    (a : ArtistRecord) (hq : q ≠ "") (ht : t ≠ "")
    (hres : resolveArtist env q = .ok (some a)) :
    (∀ items, generateRecommendations env (buildPrompt a) = .arr items →
      a.images = some [] →
      ∃ p, recommendGenres env q t = .ok p ∧
        p.searchedArtist = { name := a.name, imageUrl := none }) ∧
    (a.images = none →
      recommendGenres env q t = .err 500 "An unexpected server error occurred.") := by
  constructor
  · intro items hgen himg
    obtain ⟨r, hr⟩ := enrichStage_arr_ok env items
    have hrun : recommendGenres env q t = .ok
        { searchedArtist := { name := a.name, imageUrl := none },
          topTracks := topTrackLookup env a.id, aiRecommendations := r } := by
      rw [recommendGenres_of_resolve_some env q t hq ht a hres, hgen, hr, himg]
      rfl
    exact ⟨_, hrun, rfl⟩
  · intro himg
    rw [recommendGenres_of_resolve_some env q t hq ht a hres]
    cases henr : enrichStage env (generateRecommendations env (buildPrompt a)) with
    | error er => rfl
    | ok enriched =>
      rw [himg]

/-- Witness for C10: in `envW` (empty `images` array) the request succeeds
with an absent image; in `envM` (no `images` field) it fails with 500. -/
theorem c10_witness :
    (∃ p, recommendGenres envW "get lucky" "tok" = .ok p ∧
      p.searchedArtist = { name := "Daft Punk", imageUrl := none }) ∧
    recommendGenres envM "get lucky" "tok" =
      .err 500 "An unexpected server error occurred." := by
  constructor
  · exact (c10_searched_artist_image_indexing envW "get lucky" "tok" artistW
      (by decide) (by decide) rfl).1 [] rfl rfl
  · exact (c10_searched_artist_image_indexing envM "get lucky" "tok"
      { artistW with images := none } (by decide) (by decide) rfl).2 rfl

end GenreFinder
